import Mathlib

/-!
Shallow embedding of `src/system/system.go` from the os-agent repository.

The file models the `system` D-Bus service: the wipe-device orchestrator
(`WipeDevice`), the scheduled-wipe marker (`ScheduleWipeDevice`), the SSH
credential store (`ClearSSHAuthKeys`), and the kernel-module property
(`LoadKernelDriver`, `getDriverStatus`, initialization in `InitializeDBus`).

External collaborators (the UDisks2 helper, the filesystem, process
execution) are modelled as explicit parameters; side effects that the Go
code performs through them are returned as explicit traces so that the
claims about ordering and counts of external calls can be stated.
-/

namespace OsAgent

/-! ### Constants from `src/system/system.go` lines 19-29 -/

def labelDataFileSystem : String := "hassos-data"

def labelOverlayFileSystem : String := "hassos-overlay"

def kernelCommandLine : String := "/mnt/boot/cmdline.txt"

def tmpKernelCommandLine : String := "/mnt/boot/.tmp.cmdline.txt"

def sshAuthKeyFileName : String := "/root/.ssh/authorized_keys"

def moduleLoadCommand : String := "/sbin/modprobe"

/-! ### Go string primitives used by the code

`strings.TrimSpace` trims the Unicode White_Space characters from *both*
ends of the string; `goIsSpace` is Go's `unicode.IsSpace` predicate. -/

def goIsSpace (c : Char) : Bool :=
  (0x9 ≤ c.toNat && c.toNat ≤ 0xd) || c.toNat == 0x20 || c.toNat == 0x85 ||
  c.toNat == 0xa0 || c.toNat == 0x1680 ||
  (0x2000 ≤ c.toNat && c.toNat ≤ 0x200a) || c.toNat == 0x2028 ||
  c.toNat == 0x2029 || c.toNat == 0x202f || c.toNat == 0x205f ||
  c.toNat == 0x3000

def goTrimSpace (s : String) : String :=
  String.mk (((s.data.dropWhile goIsSpace).reverse.dropWhile goIsSpace).reverse)

/-- The first element of Go's `strings.SplitN(s, " ", 2)`: everything up to
the first space of `s`, or all of `s` when it has no space. -/
def splitN2First (s : String) : String :=
  String.mk (s.data.takeWhile (fun c => c ≠ ' '))

/-! ### UDisks2 collaborator model

`udisks2.UDisks2Helper` supplies `GetBusObjectFromLabel` and
`FormatPartition`; `udisks2.NewFilesystem(obj).GetMountPointsString`
reports the mount points of a bus object as one string (empty when the
volume is unmounted).  Bus objects are identified by `Nat` handles and the
collaborator's replies are a parameter of the embedding; errors carry
their message, matching `dbus.MakeFailedError` which preserves the
wrapped error's message text. -/

structure UDisks2 where
  getBusObjectFromLabel : String → Except String Nat
  getMountPointsString : Nat → Except String String
  formatPartition : Nat → String → String → Except String Unit

/-- One call to `udisks2helper.FormatPartition(obj, fsType, label)`. -/
structure FormatCall where
  obj : Nat
  fsType : String
  label : String
deriving DecidableEq, Repr

/-- `getAndCheckBusObjectFromLabel` (system.go lines 40-57): resolve a
label to a bus object, query its mount points, and fail with a message
naming the label and the mount points when the volume is mounted. -/
def getAndCheckBusObjectFromLabel (u : UDisks2) (label : String) :
    Except String Nat :=
  match u.getBusObjectFromLabel label with
  | .error e => .error e
  | .ok dataBusObject =>
    match u.getMountPointsString dataBusObject with
    | .error e => .error e
    | .ok dataMountPoints =>
      if 0 < dataMountPoints.length then
        .error ("Device with label \"" ++ label ++ "\" is mounted at " ++
          dataMountPoints ++ ", aborting.")
      else
        .ok dataBusObject

/-- `WipeDevice` (system.go lines 59-84).  The second component of the
result is the trace of `FormatPartition` calls actually issued, in
order. -/
def wipeDevice (u : UDisks2) : Except String Unit × List FormatCall :=
  match getAndCheckBusObjectFromLabel u labelDataFileSystem with
  | .error e => (.error e, [])
  | .ok dataBusObject =>
    match getAndCheckBusObjectFromLabel u labelOverlayFileSystem with
    | .error e => (.error e, [])
    | .ok overlayBusObject =>
      let dataCall : FormatCall := ⟨dataBusObject, "ext4", labelDataFileSystem⟩
      match u.formatPartition dataBusObject "ext4" labelDataFileSystem with
      | .error e => (.error e, [dataCall])
      | .ok _ =>
        let overlayCall : FormatCall :=
          ⟨overlayBusObject, "ext4", labelOverlayFileSystem⟩
        match u.formatPartition overlayBusObject "ext4" labelOverlayFileSystem with
        | .error e => (.error e, [dataCall, overlayCall])
        | .ok _ => (.ok (), [dataCall, overlayCall])

/-! ### Filesystem model

A flat map from paths to file contents.  `ScheduleWipeDevice` uses
`ioutil.ReadFile`, `ioutil.WriteFile` and `os.Rename`;
`ClearSSHAuthKeys` uses `os.Remove`. -/

structure FS where
  files : String → Option String

def FS.write (fs : FS) (path content : String) : FS :=
  ⟨fun p => if p = path then some content else fs.files p⟩

def FS.remove (fs : FS) (path : String) : FS :=
  ⟨fun p => if p = path then none else fs.files p⟩

/-- `os.Rename(tmpKernelCommandLine, kernelCommandLine)`: a single atomic
filesystem transition moving the temp file over the boot file. -/
def renameTmpOverKernelCommandLine (fs : FS) : FS :=
  match fs.files tmpKernelCommandLine with
  | some c => (fs.write kernelCommandLine c).remove tmpKernelCommandLine
  | none => fs

inductive IOErr where
  | readErr
  | writeErr
  | renameErr
deriving DecidableEq, Repr

/-- `ScheduleWipeDevice` (system.go lines 86-112).  `writeOk` and
`renameOk` are the oracle outcomes of `ioutil.WriteFile` and `os.Rename`;
`leftover` is whatever a failed `WriteFile` may have left in the
temp file (a failed write can leave an incomplete temp file but never
touches the boot file).  The second component is the sequence of filesystem
states observable during the call, starting from the initial one. -/
def scheduleWipeDevice (fs : FS) (writeOk renameOk : Bool)
    (leftover : String) : Except IOErr Unit × List FS :=
  match fs.files kernelCommandLine with
  | none => (.error .readErr, [fs])
  | some data =>
    let datastr := goTrimSpace data ++ " haos.wipe=1"
    if writeOk then
      let fs1 := fs.write tmpKernelCommandLine datastr
      if renameOk then
        (.ok (), [fs, fs1, renameTmpOverKernelCommandLine fs1])
      else
        (.error .renameErr, [fs, fs1])
    else
      (.error .writeErr, [fs, fs.write tmpKernelCommandLine leftover])

/-- Spec wording for claim C7: trim only the *trailing* whitespace. -/
def trimTrailingSpace (s : String) : String :=
  String.mk ((s.data.reverse.dropWhile goIsSpace).reverse)

/-! ### ClearSSHAuthKeys (system.go lines 134-141)

`os.Remove` either succeeds, fails because the file does not exist, or
fails for another reason (e.g. permissions); `removable` is the oracle
for the latter distinction.  The Go code tests
`err != nil && os.IsNotExist(err)` and returns a failed D-Bus error only
in that case. -/

inductive RemoveResult where
  | ok
  | notExist
  | otherErr
deriving DecidableEq, Repr

def RemoveResult.errNonNil : RemoveResult → Bool
  | .ok => false
  | _ => true

def RemoveResult.isNotExist : RemoveResult → Bool
  | .notExist => true
  | _ => false

def osRemove (fs : FS) (path : String) (removable : Bool) :
    RemoveResult × FS :=
  match fs.files path with
  | none => (.notExist, fs)
  | some _ => if removable then (.ok, fs.remove path) else (.otherErr, fs)

def dbusFailedError : String := "org.freedesktop.DBus.Error.Failed"

/-- `ClearSSHAuthKeys`: translated condition
`err != nil && os.IsNotExist(err)`. -/
def clearSSHAuthKeys (fs : FS) (removable : Bool) : Option String × FS :=
  let r := osRemove fs sshAuthKeyFileName removable
  if r.1.errNonNil && r.1.isNotExist then (some dbusFailedError, r.2)
  else (none, r.2)

/-! ### Kernel-module property (system.go lines 143-177)

`exec.Command(name)` does not pass `name` through a shell: it is used as
the path of the executable itself.  `ExecEvent` records the interactions
with the constructed command: `run` is an actual command invocation
(`Run`/`Start`/`Output`), `stdinPipe` only attaches a pipe and starts
nothing. -/

inductive ExecEvent where
  | stdinPipe (args : List String)
  | run (args : List String)
deriving DecidableEq, Repr

/-- The external command invocations actually issued in an event trace. -/
def runsIssued (events : List ExecEvent) : List (List String) :=
  events.filterMap fun e =>
    match e with
    | .run a => some a
    | _ => none

/-- `LoadKernelDriver` (system.go lines 153-170).  Returns the D-Bus
error (if any), the value of the package-global `loadUSBIP` after the
call, and the trace of events on the constructed command.  The source
assigns `loadUSBIP = c.Value.(bool)` first, builds the `modprobe`
argument list, calls `cmd.StdinPipe()` — and never calls
`Run`/`Start`/`Output` on `cmd`, so no `run` event occurs. -/
def loadKernelDriver (value : Bool) (stdinPipeOk : Bool) :
    Option String × Bool × List ExecEvent :=
  let loadUSBIP := value
  let args :=
    if value then [moduleLoadCommand, "vhci-hcd"]
    else [moduleLoadCommand, "--remove", "vhci-hcd"]
  let events := [ExecEvent.stdinPipe args]
  if stdinPipeOk then (none, loadUSBIP, events)
  else (some dbusFailedError, loadUSBIP, events)

/-- The exact string the source passes to `exec.Command` in
`getDriverStatus` — the whole pipeline as a single argument. -/
def driverStatusCommand : String := "cat /proc/modules | grep vhci-hcd"

/-- `getDriverStatus` (system.go lines 143-151), parameterized by the
result of `exec.Command(driverStatusCommand).Output()`. -/
def getDriverStatus (cmdOutput : Except Unit String) : Bool :=
  match cmdOutput with
  | .error _ => false
  | .ok out => splitN2First out == "vhci-hcd"

/-- The initialization `loadUSBIP = getDriverStatus()` performed by
`InitializeDBus` (system.go line 177); `execOutput` maps the path given
to `exec.Command` to the result of `.Output()`. -/
def initLoadUSBIP (execOutput : String → Except Unit String) : Bool :=
  getDriverStatus (execOutput driverStatusCommand)

/-! ## Theorems about `wipeDevice` -/

/-- When a label resolves but the volume is mounted, the precondition
check produces the error message naming the label and mount points. -/
theorem getAndCheck_mounted (u : UDisks2) (label : String) (obj : Nat)
    (mp : String) (hobj : u.getBusObjectFromLabel label = .ok obj)
    (hmp : u.getMountPointsString obj = .ok mp) (hmounted : 0 < mp.length) :
    getAndCheckBusObjectFromLabel u label =
      .error ("Device with label \"" ++ label ++ "\" is mounted at " ++
        mp ++ ", aborting.") := by
  simp [getAndCheckBusObjectFromLabel, hobj, hmp, hmounted]

/-- When a label resolves and the volume is unmounted, the precondition
check returns the bus object. -/
theorem getAndCheck_unmounted (u : UDisks2) (label : String) (obj : Nat)
    (mp : String) (hobj : u.getBusObjectFromLabel label = .ok obj)
    (hmp : u.getMountPointsString obj = .ok mp) (hlen : mp.length = 0) :
    getAndCheckBusObjectFromLabel u label = .ok obj := by
  simp [getAndCheckBusObjectFromLabel, hobj, hmp, hlen]

/-- C1: whenever the data volume (label "hassos-data") is mounted,
`WipeDevice` fails with a message containing the label and the mount
point(s), and no `FormatPartition` call is issued — with no assumption
on the overlay volume's state. -/
theorem wipeDevice_mounted_data_aborts (u : UDisks2) (obj : Nat)
    (mp : String)
    (hobj : u.getBusObjectFromLabel labelDataFileSystem = .ok obj)
    (hmp : u.getMountPointsString obj = .ok mp)
    (hmounted : 0 < mp.length) :
    ∃ msg, (wipeDevice u).1 = .error msg ∧
      (∃ a b, msg = a ++ labelDataFileSystem ++ b) ∧
      (∃ a b, msg = a ++ mp ++ b) ∧
      (wipeDevice u).2 = [] := by
  refine ⟨"Device with label \"" ++ labelDataFileSystem ++
    "\" is mounted at " ++ mp ++ ", aborting.", ?_, ?_, ?_, ?_⟩
  · simp [wipeDevice, getAndCheck_mounted u labelDataFileSystem obj mp hobj hmp hmounted]
  · exact ⟨"Device with label \"",
      "\" is mounted at " ++ mp ++ ", aborting.", by simp [String.append_assoc]⟩
  · exact ⟨"Device with label \"" ++ labelDataFileSystem ++ "\" is mounted at ",
      ", aborting.", by simp [String.append_assoc]⟩
  · simp [wipeDevice, getAndCheck_mounted u labelDataFileSystem obj mp hobj hmp hmounted]

/-- Collaborator for the C1 witness: data volume mounted at /mnt/data,
overlay volume unmounted. -/
def udisksMountedData : UDisks2 where
  getBusObjectFromLabel := fun l => if l = labelDataFileSystem then .ok 1 else .ok 2
  getMountPointsString := fun o => if o = 1 then .ok "/mnt/data" else .ok ""
  formatPartition := fun _ _ _ => .ok ()

/-- C1 witness: concrete scenario, label "hassos-data" mounted at
/mnt/data. -/
theorem wipeDevice_mounted_data_aborts_witness :
    ∃ msg, (wipeDevice udisksMountedData).1 = .error msg ∧
      (∃ a b, msg = a ++ labelDataFileSystem ++ b) ∧
      (∃ a b, msg = a ++ "/mnt/data" ++ b) ∧
      (wipeDevice udisksMountedData).2 = [] :=
  wipeDevice_mounted_data_aborts udisksMountedData 1 "/mnt/data"
    rfl rfl (by decide)

/-- C2: when both volumes resolve and are unmounted, `WipeDevice` formats
the data volume first and the overlay volume second, both ext4 with the
label reapplied; it succeeds iff both formats succeed; if the data format
fails the overlay format is not attempted. -/
theorem wipeDevice_both_unmounted (u : UDisks2) (dObj oObj : Nat)
    (dmp omp : String)
    (hd : u.getBusObjectFromLabel labelDataFileSystem = .ok dObj)
    (hdm : u.getMountPointsString dObj = .ok dmp) (hdlen : dmp.length = 0)
    (ho : u.getBusObjectFromLabel labelOverlayFileSystem = .ok oObj)
    (hom : u.getMountPointsString oObj = .ok omp) (holen : omp.length = 0) :
    (u.formatPartition dObj "ext4" labelDataFileSystem = .ok () →
      (wipeDevice u).2 = [⟨dObj, "ext4", labelDataFileSystem⟩,
        ⟨oObj, "ext4", labelOverlayFileSystem⟩]) ∧
    (∀ e, u.formatPartition dObj "ext4" labelDataFileSystem = .error e →
      (wipeDevice u).1 = .error e ∧
      (wipeDevice u).2 = [⟨dObj, "ext4", labelDataFileSystem⟩]) ∧
    ((wipeDevice u).1 = .ok () ↔
      u.formatPartition dObj "ext4" labelDataFileSystem = .ok () ∧
      u.formatPartition oObj "ext4" labelOverlayFileSystem = .ok ()) := by
  have hda := getAndCheck_unmounted u labelDataFileSystem dObj dmp hd hdm hdlen
  have hov := getAndCheck_unmounted u labelOverlayFileSystem oObj omp ho hom holen
  cases hfd : u.formatPartition dObj "ext4" labelDataFileSystem with
  | error e => simp [wipeDevice, hda, hov, hfd]
  | ok v =>
    cases v
    cases hfo : u.formatPartition oObj "ext4" labelOverlayFileSystem with
    | error e => simp [wipeDevice, hda, hov, hfd, hfo]
    | ok w => cases w; simp [wipeDevice, hda, hov, hfd, hfo]

/-- Collaborator for the C2 witness: both volumes unmounted, both formats
succeed. -/
def udisksBothUnmounted : UDisks2 where
  getBusObjectFromLabel := fun l => if l = labelDataFileSystem then .ok 1 else .ok 2
  getMountPointsString := fun _ => .ok ""
  formatPartition := fun _ _ _ => .ok ()

/-- C2 witness: both volumes unmounted and both formats succeeding gives
exactly the two format calls in order and overall success. -/
theorem wipeDevice_both_unmounted_witness :
    (wipeDevice udisksBothUnmounted).2 =
      [⟨1, "ext4", labelDataFileSystem⟩, ⟨2, "ext4", labelOverlayFileSystem⟩] ∧
    (wipeDevice udisksBothUnmounted).1 = .ok () := by
  have h := wipeDevice_both_unmounted udisksBothUnmounted 1 2 "" ""
    rfl rfl rfl rfl rfl rfl
  exact ⟨h.1 rfl, h.2.2.mpr ⟨rfl, rfl⟩⟩

/-- C6: if label resolution fails for the data label, or (with the data
volume resolved and unmounted) for the overlay label, `WipeDevice` aborts
with that error before issuing any format call. -/
theorem wipeDevice_resolve_failure_aborts (u : UDisks2) (e : String) :
    (u.getBusObjectFromLabel labelDataFileSystem = .error e →
      wipeDevice u = (.error e, [])) ∧
    (∀ obj mp, u.getBusObjectFromLabel labelDataFileSystem = .ok obj →
      u.getMountPointsString obj = .ok mp → mp.length = 0 →
      u.getBusObjectFromLabel labelOverlayFileSystem = .error e →
      wipeDevice u = (.error e, [])) := by
  constructor
  · intro hfail
    simp [wipeDevice, getAndCheckBusObjectFromLabel, hfail]
  · intro obj mp hobj hmp hlen hfail
    have hda := getAndCheck_unmounted u labelDataFileSystem obj mp hobj hmp hlen
    have hov : getAndCheckBusObjectFromLabel u labelOverlayFileSystem = .error e := by
      simp [getAndCheckBusObjectFromLabel, hfail]
    simp [wipeDevice, hda, hov]

/-- Collaborator for the C6 witness: no volume carries the data label. -/
def udisksNoDataLabel : UDisks2 where
  getBusObjectFromLabel := fun _ => .error "no volume with label hassos-data"
  getMountPointsString := fun _ => .ok ""
  formatPartition := fun _ _ _ => .ok ()

/-- C6 witness: with no volume carrying the data label, `WipeDevice`
relays the resolution error and issues no format call. -/
theorem wipeDevice_resolve_failure_aborts_witness :
    wipeDevice udisksNoDataLabel =
      (.error "no volume with label hassos-data", []) :=
  (wipeDevice_resolve_failure_aborts udisksNoDataLabel
    "no volume with label hassos-data").1 rfl

/-! ## Theorems about `scheduleWipeDevice` -/

theorem kernelCommandLine_ne_tmp : kernelCommandLine ≠ tmpKernelCommandLine := by
  decide

/-- Writing the temp file does not change the boot file. -/
theorem write_tmp_preserves_boot (fs : FS) (c : String) :
    (fs.write tmpKernelCommandLine c).files kernelCommandLine =
      fs.files kernelCommandLine := by
  simp [FS.write, kernelCommandLine_ne_tmp]

/-- After renaming a temp file holding `c` over the boot file, the boot
file holds `c`. -/
theorem rename_sets_boot (fs : FS) (c : String) :
    (renameTmpOverKernelCommandLine (fs.write tmpKernelCommandLine c)).files
      kernelCommandLine = some c := by
  simp [renameTmpOverKernelCommandLine, FS.write, FS.remove,
    kernelCommandLine_ne_tmp]

/-- C4: the boot command-line file is only replaced atomically via
temp-file-then-rename: a failed read returns the read error with the
filesystem untouched; a failed temp-file write returns the write error
with the boot file unchanged in every observable state; and in every
execution each observable state holds either the full old boot content or
the full new one — never a partial write. -/
theorem scheduleWipeDevice_atomic (fs : FS) (w r : Bool) (p : String) :
    (fs.files kernelCommandLine = none →
      scheduleWipeDevice fs w r p = (.error .readErr, [fs])) ∧
    (∀ C, fs.files kernelCommandLine = some C → w = false →
      (scheduleWipeDevice fs w r p).1 = .error .writeErr ∧
      ∀ fs2 ∈ (scheduleWipeDevice fs w r p).2,
        fs2.files kernelCommandLine = some C) ∧
    (∀ C, fs.files kernelCommandLine = some C →
      ∀ fs2 ∈ (scheduleWipeDevice fs w r p).2,
        fs2.files kernelCommandLine = some C ∨
        fs2.files kernelCommandLine =
          some (goTrimSpace C ++ " haos.wipe=1")) := by
  refine ⟨fun hnone => by simp [scheduleWipeDevice, hnone], ?_, ?_⟩
  · intro C hC hw
    subst hw
    constructor
    · simp [scheduleWipeDevice, hC]
    · intro fs2 hfs2
      simp only [scheduleWipeDevice, hC, Bool.false_eq_true, if_false,
        List.mem_cons, List.mem_singleton, List.not_mem_nil] at hfs2
      rcases hfs2 with h | h | h
      · simp [h, hC]
      · simp [h, write_tmp_preserves_boot, hC]
      · exact absurd h (by simp)
  · intro C hC fs2 hfs2
    cases w with
    | false =>
      simp only [scheduleWipeDevice, hC, Bool.false_eq_true, if_false,
        List.mem_cons, List.mem_singleton, List.not_mem_nil] at hfs2
      rcases hfs2 with h | h | h
      · exact Or.inl (by simp [h, hC])
      · exact Or.inl (by simp [h, write_tmp_preserves_boot, hC])
      · exact absurd h (by simp)
    | true =>
      cases r with
      | false =>
        simp only [scheduleWipeDevice, hC, if_true, Bool.false_eq_true,
          if_false, List.mem_cons, List.mem_singleton, List.not_mem_nil] at hfs2
        rcases hfs2 with h | h | h
        · exact Or.inl (by simp [h, hC])
        · exact Or.inl (by simp [h, write_tmp_preserves_boot, hC])
        · exact absurd h (by simp)
      | true =>
        simp only [scheduleWipeDevice, hC, if_true, List.mem_cons,
          List.mem_singleton, List.not_mem_nil] at hfs2
        rcases hfs2 with h | h | h | h
        · exact Or.inl (by simp [h, hC])
        · exact Or.inl (by simp [h, write_tmp_preserves_boot, hC])
        · exact Or.inr (by simp [h, rename_sets_boot])
        · exact absurd h (by simp)

/-- Boot filesystem for the C4 witness. -/
def fsBoot : FS :=
  ⟨fun p => if p = kernelCommandLine then some "root=/dev/mmcblk0p1" else none⟩

/-- C4 witness: a failed temp-file write leaves the boot file holding its
original content in every observable state and surfaces the write
error. -/
theorem scheduleWipeDevice_atomic_witness :
    (scheduleWipeDevice fsBoot false true "haos.w").1 = .error .writeErr ∧
    ∀ fs2 ∈ (scheduleWipeDevice fsBoot false true "haos.w").2,
      fs2.files kernelCommandLine = some "root=/dev/mmcblk0p1" :=
  (scheduleWipeDevice_atomic fsBoot false true "haos.w").2.1
    "root=/dev/mmcblk0p1" rfl rfl

/-- Boot filesystem whose command line has *leading* whitespace, for the
C7 counterexample. -/
def fsBootLeading : FS :=
  ⟨fun p => if p = kernelCommandLine then some " console=ttyS0" else none⟩

/-- C7 counterexample: on a boot file containing " console=ttyS0" (leading
space), a successful `ScheduleWipeDevice` leaves
"console=ttyS0 haos.wipe=1", not
trim-trailing-whitespace(" console=ttyS0") ++ " haos.wipe=1" =
" console=ttyS0 haos.wipe=1" as the claim states: the code trims leading
whitespace too (`strings.TrimSpace`). -/
theorem scheduleWipeDevice_trimTrailing_counterexample :
    (scheduleWipeDevice fsBootLeading true true "").1 = .ok () ∧
    ((scheduleWipeDevice fsBootLeading true true "").2.getLastD fsBootLeading).files
      kernelCommandLine = some "console=ttyS0 haos.wipe=1" ∧
    "console=ttyS0 haos.wipe=1" ≠
      trimTrailingSpace " console=ttyS0" ++ " haos.wipe=1" := by
  refine ⟨rfl, by decide, by decide⟩

/-- C7 as amended: a successful `ScheduleWipeDevice` on boot content `C`
leaves exactly trim-leading-and-trailing-whitespace(`C`) followed by a
single space and the token `haos.wipe=1`. -/
theorem scheduleWipeDevice_appends_token (fs : FS) (C p : String)
    (hC : fs.files kernelCommandLine = some C) :
    (scheduleWipeDevice fs true true p).1 = .ok () ∧
    ((scheduleWipeDevice fs true true p).2.getLastD fs).files
      kernelCommandLine = some (goTrimSpace C ++ " haos.wipe=1") := by
  constructor
  · simp [scheduleWipeDevice, hC]
  · simp [scheduleWipeDevice, hC, rename_sets_boot]

/-- Boot filesystem for the C7 witness, matching the spec scenario. -/
def fsBootTty : FS :=
  ⟨fun p => if p = kernelCommandLine then some "console=ttyS0" else none⟩

/-- C7 witness: the spec scenario — boot file "console=ttyS0" becomes
exactly "console=ttyS0 haos.wipe=1". -/
theorem scheduleWipeDevice_appends_token_witness :
    (scheduleWipeDevice fsBootTty true true "").1 = .ok () ∧
    ((scheduleWipeDevice fsBootTty true true "").2.getLastD fsBootTty).files
      kernelCommandLine = some "console=ttyS0 haos.wipe=1" := by
  have h := scheduleWipeDevice_appends_token fsBootTty "console=ttyS0" "" rfl
  have he : goTrimSpace "console=ttyS0" ++ " haos.wipe=1" =
      "console=ttyS0 haos.wipe=1" := by decide
  rw [he] at h
  exact h

/-! ## Theorems about `clearSSHAuthKeys` -/

/-- Empty filesystem: the authorized-keys file does not exist. -/
def fsNoKeys : FS := ⟨fun _ => none⟩

/-- Filesystem holding an authorized-keys file. -/
def fsWithKeys : FS :=
  ⟨fun p => if p = sshAuthKeyFileName then some "ssh-ed25519 AAAA root" else none⟩

/-- C5 (code bug): `ClearSSHAuthKeys` on a *nonexistent* authorized-keys
file returns a failed D-Bus error, because the source tests
`err != nil && os.IsNotExist(err)` — the inverted condition — while the
spec requires success; when the file exists, removal succeeds, the file
is deleted in full and `nil` is returned. -/
theorem clearSSHAuthKeys_missing_file_errors :
    (clearSSHAuthKeys fsNoKeys true).1 = some dbusFailedError ∧
    (clearSSHAuthKeys fsWithKeys true).1 = none ∧
    (clearSSHAuthKeys fsWithKeys true).2.files sshAuthKeyFileName = none := by
  refine ⟨rfl, rfl, by decide⟩

/-- C10: when `os.Remove` fails with an error other than
file-not-exist (modelled by `removable = false`, e.g. a permission
error), `ClearSSHAuthKeys` returns success (`nil`) and the file is left
in place — the removal error is not surfaced. -/
theorem clearSSHAuthKeys_other_error_ignored (fs : FS) (c : String)
    (h : fs.files sshAuthKeyFileName = some c) :
    (clearSSHAuthKeys fs false).1 = none ∧
    (clearSSHAuthKeys fs false).2.files sshAuthKeyFileName = some c := by
  simp [clearSSHAuthKeys, osRemove, h, RemoveResult.errNonNil,
    RemoveResult.isNotExist]

/-- Filesystem for the C10 witness. -/
def fsWithKeysLocked : FS :=
  ⟨fun p => if p = sshAuthKeyFileName then some "ssh-rsa BBBB root" else none⟩

/-- C10 witness: a concrete undeletable authorized-keys file —
`ClearSSHAuthKeys` reports success and the file survives. -/
theorem clearSSHAuthKeys_other_error_ignored_witness :
    (clearSSHAuthKeys fsWithKeysLocked false).1 = none ∧
    (clearSSHAuthKeys fsWithKeysLocked false).2.files sshAuthKeyFileName =
      some "ssh-rsa BBBB root" :=
  clearSSHAuthKeys_other_error_ignored fsWithKeysLocked "ssh-rsa BBBB root" rfl

/-! ## Theorems about the kernel-module property -/

/-- C3 (code bug): writing `true` to the `LoadUSBIP` property makes the
subsequent property read return `true` and reports no error, but the
module-load command is never invoked: `LoadKernelDriver` builds the
`/sbin/modprobe vhci-hcd` argument list and attaches a stdin pipe, yet
never calls `Run`/`Start`/`Output`, so the count of issued command
invocations is zero — not the single invocation the claim requires. -/
theorem loadKernelDriver_issues_no_command :
    (loadKernelDriver true true).1 = none ∧
    (loadKernelDriver true true).2.1 = true ∧
    runsIssued (loadKernelDriver true true).2.2 = [] ∧
    (loadKernelDriver true true).2.2 =
      [ExecEvent.stdinPipe [moduleLoadCommand, "vhci-hcd"]] := by
  refine ⟨rfl, rfl, rfl, rfl⟩

/-- C9: `LoadKernelDriver` stores the requested value in the cached
`loadUSBIP` flag unconditionally — in particular, when the call fails
(stdin-pipe setup error) and the write is rejected, the cache already
holds the requested value, so the write is not atomic with respect to
the cache. -/
theorem loadKernelDriver_cache_updated_even_on_error (value ok : Bool) :
    (loadKernelDriver value ok).2.1 = value ∧
    (ok = false → (loadKernelDriver value ok).1 = some dbusFailedError) := by
  cases ok <;> simp [loadKernelDriver]

/-- C9 witness: requesting `true` while the stdin-pipe setup fails — the
call errors, yet the cache reads `true`. -/
theorem loadKernelDriver_cache_updated_even_on_error_witness :
    (loadKernelDriver true false).2.1 = true ∧
    (loadKernelDriver true false).1 = some dbusFailedError :=
  ⟨(loadKernelDriver_cache_updated_even_on_error true false).1,
    (loadKernelDriver_cache_updated_even_on_error true false).2 rfl⟩

/-- Modelled from the spec: "checking whether the module's name appears
in the running module table" — the initialization the source intends. -/
def specDriverStatus (modules : List String) : Bool :=
  modules.contains "vhci-hcd"

/-- C8 (code bug): the source passes the whole pipeline
`cat /proc/modules | grep vhci-hcd` as a single path to `exec.Command`
with no shell, so `.Output()` fails (no executable has that path) and
the cached flag is initialized to `false` regardless of the running
module table — here, even though the module table contains `vhci-hcd`
(so the intended check yields `true`). -/
theorem initLoadUSBIP_false_despite_loaded_module :
    specDriverStatus ["vhci-hcd", "usbcore"] = true ∧
    initLoadUSBIP (fun _ => Except.error ()) = false := by
  refine ⟨by decide, rfl⟩

end OsAgent
